import Mathlib

/-!
# Verification of the password-vault authentication core

Shallow embedding of the vault's data model (`types.ts`), storage layer
(`services/db.ts`), cryptographic wrappers (`services/crypto.ts`) and the
authentication service (`services/auth.ts`).

Platform primitives (the Web Crypto SHA-256 digest, PBKDF2 key derivation,
AES-GCM, `btoa`/`atob`, `TextEncoder`/`TextDecoder`, `Date.now()`,
`crypto.getRandomValues`) are not repository code; they enter the model as
explicit function parameters or as arguments (`now`, random salt / IV bytes),
so every theorem quantifies over their behaviour.  Everything else is a direct
translation of the TypeScript source.
-/

namespace Vault

/-- `VaultMetadata` from `types.ts`: base64 salt and base64 SHA-256 auth hash. -/
structure VaultMetadata where
  salt : String
  authHash : String
deriving DecidableEq, Repr

/-- `PasswordEntry` from `types.ts`. -/
structure PasswordEntry where
  id : String
  site : String
  username : String
  encryptedPassword : String
  iv : String
  createdAt : Nat
deriving DecidableEq, Repr

/-- `LoginAttemptLog` from `services/db.ts`. -/
structure LoginAttemptLog where
  timestamp : Nat
  success : Bool
deriving DecidableEq, Repr

/-- `SecurityState` from `services/db.ts`. -/
structure SecurityState where
  count : Nat
  lockoutUntil : Nat
  logs : List LoginAttemptLog
deriving DecidableEq, Repr

/-- The three `localStorage` cells used by `services/db.ts`
(`secure_vault_metadata`, `secure_vault_entries`, `secure_vault_attempts`),
in their parsed, well-typed form.  `metadata = none` models the absent
`METADATA` key ("no vault yet"). -/
structure Store where
  metadata : Option VaultMetadata
  entries : List PasswordEntry
  security : SecurityState
deriving DecidableEq, Repr

/-- A `CryptoKey` produced by `deriveKey`.  PBKDF2-SHA256 at fixed iteration
count is a deterministic platform function of (password, salt); the auth
service never inspects the key, so the pair of inputs models it exactly. -/
structure CryptoKey where
  password : String
  salt : String
deriving DecidableEq, Repr

/-- `deriveKey` from `services/crypto.ts`: PBKDF2(SHA-256, 100000 iterations)
over (password, salt).  The derivation itself is a Web Crypto platform
primitive; the repository only fixes its arguments, which the model records. -/
def deriveKey (password saltBase64 : String) : CryptoKey :=
  { password := password, salt := saltBase64 }

/-- `hashPassword` from `services/crypto.ts`:
`bufferToBase64(SHA-256(encode(password + saltBase64)))`.  The repository code
is the concatenation; the digest-and-encode step is a Web Crypto platform
primitive, passed in as `digest`. -/
def hashPassword (digest : String → String) (password saltBase64 : String) : String :=
  digest (password ++ saltBase64)

/-- `MAX_ATTEMPTS` from `services/auth.ts`. -/
def MAX_ATTEMPTS : Nat := 3

/-- `LOCKOUT_DURATION_MS` from `services/auth.ts` (30 seconds). -/
def LOCKOUT_DURATION_MS : Nat := 30000

/-- `initVault` from `services/db.ts`: writes metadata, an empty entry list
and the zeroed security state into the three cells. -/
def initVault (metadata : VaultMetadata) : Store :=
  { metadata := some metadata
    entries := []
    security := { count := 0, lockoutUntil := 0, logs := [] } }

/-- `updateSecurityState` from `services/db.ts`: overwrites the
`secure_vault_attempts` cell wholesale. -/
def updateSecurityState (store : Store) (state : SecurityState) : Store :=
  { store with security := state }

/-- The value returned by `loginUser`:
`{ success: boolean; key?: CryptoKey; error?: string }`. -/
structure LoginResult where
  success : Bool
  key : Option CryptoKey := none
  error : Option String := none
deriving DecidableEq, Repr

/-- One call to `loginUser`: the store it leaves behind, the ordered list of
`DB.updateSecurityState` calls it performed before returning, and its
result value. -/
structure LoginCall where
  store : Store
  writes : List SecurityState
  result : LoginResult
deriving DecidableEq, Repr

/-- `loginUser` from `services/auth.ts`, with `Date.now()` passed in as `now`
and the platform digest as `digest`.  A direct translation: lockout check
first, then metadata presence, then hash comparison, with the two mutating
branches going through `updateSecurityState`. -/
def loginUser (digest : String → String) (now : Nat) (store : Store)
    (password : String) : LoginCall :=
  let securityState := store.security
  if securityState.lockoutUntil > now then
    let remaining := (securityState.lockoutUntil - now + 999) / 1000
    { store := store, writes := []
      result := { success := false
                  error := some ("Account locked. Try again in " ++
                    toString remaining ++ " seconds.") } }
  else
    match store.metadata with
    | none =>
      { store := store, writes := []
        result := { success := false, error := some "Vault corrupted or missing." } }
    | some metadata =>
      let attemptHash := hashPassword digest password metadata.salt
      if attemptHash = metadata.authHash then
        let newState : SecurityState :=
          { count := 0, lockoutUntil := 0
            logs := securityState.logs ++ [{ timestamp := now, success := true }] }
        { store := updateSecurityState store newState, writes := [newState]
          result := { success := true, key := some (deriveKey password metadata.salt) } }
      else
        let newCount := securityState.count + 1
        let newLockout := if newCount ≥ MAX_ATTEMPTS then now + LOCKOUT_DURATION_MS else 0
        let errorMsg :=
          if newCount ≥ MAX_ATTEMPTS then
            "Too many failed attempts. Account locked for " ++
              toString (LOCKOUT_DURATION_MS / 1000) ++ " seconds."
          else "Invalid password."
        let newState : SecurityState :=
          { count := newCount, lockoutUntil := newLockout
            logs := securityState.logs ++ [{ timestamp := now, success := false }] }
        { store := updateSecurityState store newState, writes := [newState]
          result := { success := false, error := some errorMsg } }

/-- The value returned by `getLockoutStatus`. -/
structure LockoutStatus where
  isLocked : Bool
  remaining : Nat
deriving DecidableEq, Repr

/-- `getLockoutStatus` from `services/auth.ts`, with `Date.now()` passed in
as `now`: a pure read of `SecurityState.lockoutUntil` against the clock. -/
def getLockoutStatus (store : Store) (now : Nat) : LockoutStatus :=
  let lockoutUntil := store.security.lockoutUntil
  if lockoutUntil > now then
    { isLocked := true, remaining := (lockoutUntil - now + 999) / 1000 }
  else
    { isLocked := false, remaining := 0 }

/-! ## Raw storage reads (`services/db.ts`)

`localStorage.getItem` returns a string or `null`; the readers run the JS
truthiness test `data ? JSON.parse(data) : <default>`.  A present cell is
either the empty string (the truthy test fails — JS treats `""` as falsy),
a non-empty string on which `JSON.parse` throws (the exception propagates
out of the reader; the spec's error taxonomy calls that surfaced failure a
`StorageError`), or a non-empty string parsing to some JSON value.  The
readers perform no shape validation on the parsed value: for a cell of
expected shape `α` the parse result may be the JSON literal `null`, a value
of shape `α`, or valid JSON of some other shape, and whatever it is gets
returned unchecked. -/

/-- The result of a successful `JSON.parse` on a cell expected to hold an
`α`: the JSON literal `null`, a value of the expected shape, or valid JSON
of some other shape (carried as its raw text). -/
inductive JsonValue (α : Type) where
  | jsonNull : JsonValue α
  | ofShape (value : α) : JsonValue α
  | otherShape (raw : String) : JsonValue α
deriving DecidableEq, Repr

/-- The content of one `localStorage` string cell, classified by how the JS
readers treat it: absent cells are `none`; a present cell is empty, throws
in `JSON.parse`, or parses to a `JsonValue α`. -/
inductive RawData (α : Type) where
  | empty : RawData α
  | corrupt : RawData α
  | parsed (value : JsonValue α) : RawData α
deriving DecidableEq, Repr

/-- The error surfaced when `JSON.parse` throws on stored data (the spec's
`StorageError` for unparsable cells). -/
inductive StorageError where
  | parseFailure : StorageError
deriving DecidableEq, Repr

/-- What a JS reader hands back when it does not throw: `null`, a value of
the expected shape (or the reader's default), or an unvalidated wrong-shape
JSON value passed through as-is. -/
inductive JSRead (α : Type) where
  | jsNull : JSRead α
  | value (a : α) : JSRead α
  | garbage (raw : String) : JSRead α
deriving DecidableEq, Repr

/-- `hasVault` from `services/db.ts`: `!!localStorage.getItem(METADATA)` —
true iff the cell holds a non-empty string (JS truthiness), regardless of
whether that string parses or has the right shape. -/
def hasVault (cell : Option (RawData VaultMetadata)) : Bool :=
  match cell with
  | none => false
  | some .empty => false
  | some .corrupt => true
  | some (.parsed _) => true

/-- `getMetadata` from `services/db.ts`:
`data ? JSON.parse(data) : null`.  Absent or empty cell → `null`; unparsable
non-empty cell → the `JSON.parse` exception propagates; a parsed value is
returned without shape validation, so the stored text `"null"` also comes
back as `null` and wrong-shape JSON comes back as-is. -/
def getMetadata (cell : Option (RawData VaultMetadata)) :
    Except StorageError (JSRead VaultMetadata) :=
  match cell with
  | none => .ok .jsNull
  | some .empty => .ok .jsNull
  | some .corrupt => .error .parseFailure
  | some (.parsed .jsonNull) => .ok .jsNull
  | some (.parsed (.ofShape m)) => .ok (.value m)
  | some (.parsed (.otherShape raw)) => .ok (.garbage raw)

/-- `getEntries` from `services/db.ts`: `data ? JSON.parse(data) : []`, with
the same no-validation pass-through of parsed values. -/
def getEntries (cell : Option (RawData (List PasswordEntry))) :
    Except StorageError (JSRead (List PasswordEntry)) :=
  match cell with
  | none => .ok (.value [])
  | some .empty => .ok (.value [])
  | some .corrupt => .error .parseFailure
  | some (.parsed .jsonNull) => .ok .jsNull
  | some (.parsed (.ofShape es)) => .ok (.value es)
  | some (.parsed (.otherShape raw)) => .ok (.garbage raw)

/-- `getSecurityState` from `services/db.ts`:
`data ? JSON.parse(data) : { count: 0, lockoutUntil: 0, logs: [] }`, with
the same no-validation pass-through of parsed values. -/
def getSecurityState (cell : Option (RawData SecurityState)) :
    Except StorageError (JSRead SecurityState) :=
  match cell with
  | none => .ok (.value { count := 0, lockoutUntil := 0, logs := [] })
  | some .empty => .ok (.value { count := 0, lockoutUntil := 0, logs := [] })
  | some .corrupt => .error .parseFailure
  | some (.parsed .jsonNull) => .ok .jsNull
  | some (.parsed (.ofShape st)) => .ok (.value st)
  | some (.parsed (.otherShape raw)) => .ok (.garbage raw)

/-! ## Encryption wrappers (`services/crypto.ts`)

`bufferToBase64` / `base64ToBuffer` are repository loops around the platform
primitives `btoa` / `atob`; `encryptData` / `decryptData` wrap the platform
AES-GCM cipher and `TextEncoder` / `TextDecoder`.  Bytes are modelled as
`Nat`s (`< 256` where a `Uint8Array` guarantees it). -/

/-- `bufferToBase64` from `services/crypto.ts`: build a binary string with
`String.fromCharCode` over the bytes, then `btoa` (platform). -/
def bufferToBase64 (btoa' : String → String) (buffer : List Nat) : String :=
  btoa' (String.mk (buffer.map Char.ofNat))

/-- `base64ToBuffer` from `services/crypto.ts`: `atob` (platform), then a
`charCodeAt` loop storing into a `Uint8Array` (which truncates mod 256). -/
def base64ToBuffer (atob' : String → String) (base64 : String) : List Nat :=
  (atob' base64).data.map (fun c => c.toNat % 256)

/-- `generateSalt` from `services/crypto.ts`:
`bufferToBase64(crypto.getRandomValues(new Uint8Array(16)).buffer)`.  The
platform RNG enters as `getRandomValues` (mapping a requested `Uint8Array`
length to the bytes it was filled with); the repository code fixes the
requested length at 16 and the base64 encoding via `bufferToBase64`. -/
def generateSalt (btoa' : String → String) (getRandomValues : Nat → List Nat) :
    String :=
  bufferToBase64 btoa' (getRandomValues 16)

/-- `registerUser` from `services/auth.ts`, with the platform digest, `btoa`
and RNG passed in: generates the fresh salt via `generateSalt`, hashes the
password with it, initialises the vault through `initVault`, and returns the
derived session key. -/
def registerUser (digest btoa' : String → String)
    (getRandomValues : Nat → List Nat) (password : String) : Store × CryptoKey :=
  let salt := generateSalt btoa' getRandomValues
  let authHash := hashPassword digest password salt
  let metadata : VaultMetadata := { salt := salt, authHash := authHash }
  (initVault metadata, deriveKey password salt)

/-- The value returned by `encryptData`: `{ ciphertext, iv }`, both base64. -/
structure Encrypted where
  ciphertext : String
  iv : String
deriving DecidableEq, Repr

/-- `encryptData` from `services/crypto.ts`, with the platform pieces passed
in: `textEncode` (`TextEncoder.encode`), `gcmEncrypt`
(`crypto.subtle.encrypt` with AES-GCM, taking key, IV bytes and data bytes),
`btoa'`, and the 12 platform-random IV bytes `ivBytes`
(`crypto.getRandomValues(new Uint8Array(12))`). -/
def encryptData (textEncode : String → List Nat)
    (gcmEncrypt : CryptoKey → List Nat → List Nat → List Nat)
    (btoa' : String → String) (ivBytes : List Nat)
    (text : String) (key : CryptoKey) : Encrypted :=
  let data := textEncode text
  let encryptedBuffer := gcmEncrypt key ivBytes data
  { ciphertext := bufferToBase64 btoa' encryptedBuffer
    iv := bufferToBase64 btoa' ivBytes }

/-- `decryptData` from `services/crypto.ts`: unwrap base64, call the platform
AES-GCM decrypt (`gcmDecrypt` returns `none` when tag verification fails and
`subtle.decrypt` rejects), decode the plaintext bytes with `textDecode`
(`TextDecoder.decode`, total); the `catch` turns a rejection into the fixed
error message. -/
def decryptData (textDecode : List Nat → String)
    (gcmDecrypt : CryptoKey → List Nat → List Nat → Option (List Nat))
    (atob' : String → String)
    (ciphertextBase64 ivBase64 : String) (key : CryptoKey) :
    Except String String :=
  let ciphertext := base64ToBuffer atob' ciphertextBase64
  let iv := base64ToBuffer atob' ivBase64
  match gcmDecrypt key iv ciphertext with
  | some decryptedBuffer => .ok (textDecode decryptedBuffer)
  | none => .error "Decryption failed. Data may be corrupted or key is incorrect."

/-! ## Path characterisations of `loginUser` -/

/-- Lockout path: `lockoutUntil > now` rejects before touching metadata,
password or storage. -/
theorem loginUser_locked_eq (digest : String → String) (now : Nat) (store : Store)
    (password : String) (h : store.security.lockoutUntil > now) :
    loginUser digest now store password =
      { store := store, writes := []
        result := { success := false, key := none
                    error := some ("Account locked. Try again in " ++
                      toString ((store.security.lockoutUntil - now + 999) / 1000) ++
                      " seconds.") } } := by
  simp only [loginUser]
  rw [if_pos h]

/-- Missing-metadata path. -/
theorem loginUser_noMetadata_eq (digest : String → String) (now : Nat) (store : Store)
    (password : String) (hlock : ¬ store.security.lockoutUntil > now)
    (hm : store.metadata = none) :
    loginUser digest now store password =
      { store := store, writes := []
        result := { success := false, key := none
                    error := some "Vault corrupted or missing." } } := by
  simp only [loginUser]
  rw [if_neg hlock, hm]

/-- Success path: matching hash resets the counter, clears the lockout,
appends one success log entry, persists once, and returns the derived key. -/
theorem loginUser_match_eq (digest : String → String) (now : Nat) (store : Store)
    (password : String) (m : VaultMetadata)
    (hlock : ¬ store.security.lockoutUntil > now)
    (hm : store.metadata = some m)
    (hh : hashPassword digest password m.salt = m.authHash) :
    loginUser digest now store password =
      { store := updateSecurityState store
          { count := 0, lockoutUntil := 0
            logs := store.security.logs ++ [{ timestamp := now, success := true }] }
        writes := [{ count := 0, lockoutUntil := 0
                     logs := store.security.logs ++ [{ timestamp := now, success := true }] }]
        result := { success := true, key := some (deriveKey password m.salt)
                    error := none } } := by
  simp only [loginUser]
  rw [if_neg hlock, hm]
  simp only [hh, if_true]

/-- Mismatch path below the attempt threshold. -/
theorem loginUser_mismatch_below_eq (digest : String → String) (now : Nat) (store : Store)
    (password : String) (m : VaultMetadata)
    (hlock : ¬ store.security.lockoutUntil > now)
    (hm : store.metadata = some m)
    (hh : ¬ hashPassword digest password m.salt = m.authHash)
    (hc : store.security.count + 1 < MAX_ATTEMPTS) :
    loginUser digest now store password =
      { store := updateSecurityState store
          { count := store.security.count + 1, lockoutUntil := 0
            logs := store.security.logs ++ [{ timestamp := now, success := false }] }
        writes := [{ count := store.security.count + 1, lockoutUntil := 0
                     logs := store.security.logs ++ [{ timestamp := now, success := false }] }]
        result := { success := false, key := none
                    error := some "Invalid password." } } := by
  simp only [loginUser]
  rw [if_neg hlock, hm]
  simp only [if_neg hh, ge_iff_le, if_neg (Nat.not_le.mpr hc)]

/-- Mismatch path reaching the attempt threshold: sets the 30-second lockout
and returns the lockout-trigger error. -/
theorem loginUser_mismatch_lock_eq (digest : String → String) (now : Nat) (store : Store)
    (password : String) (m : VaultMetadata)
    (hlock : ¬ store.security.lockoutUntil > now)
    (hm : store.metadata = some m)
    (hh : ¬ hashPassword digest password m.salt = m.authHash)
    (hc : MAX_ATTEMPTS ≤ store.security.count + 1) :
    loginUser digest now store password =
      { store := updateSecurityState store
          { count := store.security.count + 1
            lockoutUntil := now + LOCKOUT_DURATION_MS
            logs := store.security.logs ++ [{ timestamp := now, success := false }] }
        writes := [{ count := store.security.count + 1
                     lockoutUntil := now + LOCKOUT_DURATION_MS
                     logs := store.security.logs ++ [{ timestamp := now, success := false }] }]
        result := { success := false, key := none
                    error := some "Too many failed attempts. Account locked for 30 seconds." } } := by
  simp only [loginUser]
  rw [if_neg hlock, hm]
  simp only [if_neg hh, ge_iff_le, if_pos hc]
  rfl

/-! ## Concrete sample values (used by witnesses and counterexamples) -/

/-- A sample digest standing in for the platform SHA-256+base64 digest. -/
def sampleDigest : String → String := fun s => s

/-- Sample metadata: under `sampleDigest`, the correct password is `"pw"`. -/
def sampleMeta : VaultMetadata := { salt := "SALT", authHash := "pwSALT" }

/-- A freshly registered vault store. -/
def sampleFreshStore : Store :=
  { metadata := some sampleMeta, entries := []
    security := { count := 0, lockoutUntil := 0, logs := [] } }

/-- A store in active lockout until t = 30030. -/
def sampleLockedStore : Store :=
  { metadata := some sampleMeta, entries := []
    security := { count := 3, lockoutUntil := 30030, logs := [] } }

/-- A store whose metadata cell is absent. -/
def noVaultStore : Store :=
  { metadata := none, entries := []
    security := { count := 0, lockoutUntil := 0, logs := [] } }

/-- A store whose lockout expires exactly at t = 1000. -/
def sampleBoundaryStore : Store :=
  { metadata := some sampleMeta, entries := []
    security := { count := 3, lockoutUntil := 1000, logs := [] } }

/-! ## Claim theorems -/

/-- **C2**: while `lockoutUntil > now`, `login` fails immediately with a
lockout error carrying the remaining seconds, for every supplied password
(including the correct one); the outcome is the same for every digest
function, so no password hash computation happens before (or influences)
the check. -/
theorem C2_lockout_blocks_every_password (digest : String → String) (now : Nat)
    (store : Store) (password : String)
    (h : store.security.lockoutUntil > now) :
    loginUser digest now store password =
      { store := store, writes := []
        result := { success := false, key := none
                    error := some ("Account locked. Try again in " ++
                      toString ((store.security.lockoutUntil - now + 999) / 1000) ++
                      " seconds.") } } ∧
    ∀ (digest2 : String → String) (password2 : String),
      loginUser digest now store password = loginUser digest2 now store password2 := by
  refine ⟨loginUser_locked_eq digest now store password h, fun digest2 password2 => ?_⟩
  rw [loginUser_locked_eq digest now store password h,
    loginUser_locked_eq digest2 now store password2 h]

/-- Witness for C2: a locked store at `now = 15` rejects even the correct
password `"pw"` with the 31-second countdown. -/
theorem C2_lockout_blocks_every_password_witness :
    sampleLockedStore.security.lockoutUntil > 15 ∧
    loginUser sampleDigest 15 sampleLockedStore "pw" =
      { store := sampleLockedStore, writes := []
        result := { success := false, key := none
                    error := some "Account locked. Try again in 31 seconds." } } := by
  refine ⟨by decide, ?_⟩
  rw [(C2_lockout_blocks_every_password sampleDigest 15 sampleLockedStore "pw" (by decide)).1]
  decide

/-- **C3**: a login outside any lockout whose hash matches `authHash` resets
`count` to 0, clears `lockoutUntil`, appends exactly one success log entry
after the prior logs, persists the new state via `updateSecurityState`, and
returns success with `deriveKey(password, metadata.salt)`. -/
theorem C3_success_resets_and_returns_key (digest : String → String) (now : Nat)
    (store : Store) (password : String) (m : VaultMetadata)
    (hlock : ¬ store.security.lockoutUntil > now)
    (hm : store.metadata = some m)
    (hh : hashPassword digest password m.salt = m.authHash) :
    loginUser digest now store password =
      { store := updateSecurityState store
          { count := 0, lockoutUntil := 0
            logs := store.security.logs ++ [{ timestamp := now, success := true }] }
        writes := [{ count := 0, lockoutUntil := 0
                     logs := store.security.logs ++ [{ timestamp := now, success := true }] }]
        result := { success := true, key := some (deriveKey password m.salt)
                    error := none } } :=
  loginUser_match_eq digest now store password m hlock hm hh

/-- Witness for C3: correct password `"pw"` on a vault with two prior failed
attempts succeeds, zeroes the counter and keeps the two old log entries. -/
theorem C3_success_resets_and_returns_key_witness :
    (¬ ({ metadata := some sampleMeta, entries := []
          security := { count := 2, lockoutUntil := 0
                        logs := [{ timestamp := 1, success := false },
                                 { timestamp := 2, success := false }] } } : Store).security.lockoutUntil > 7) ∧
    hashPassword sampleDigest "pw" sampleMeta.salt = sampleMeta.authHash ∧
    loginUser sampleDigest 7
        { metadata := some sampleMeta, entries := []
          security := { count := 2, lockoutUntil := 0
                        logs := [{ timestamp := 1, success := false },
                                 { timestamp := 2, success := false }] } } "pw" =
      { store := { metadata := some sampleMeta, entries := []
                   security := { count := 0, lockoutUntil := 0
                                 logs := [{ timestamp := 1, success := false },
                                          { timestamp := 2, success := false },
                                          { timestamp := 7, success := true }] } }
        writes := [{ count := 0, lockoutUntil := 0
                     logs := [{ timestamp := 1, success := false },
                              { timestamp := 2, success := false },
                              { timestamp := 7, success := true }] }]
        result := { success := true, key := some (deriveKey "pw" sampleMeta.salt)
                    error := none } } := by
  refine ⟨by decide, by decide, ?_⟩
  rw [C3_success_resets_and_returns_key sampleDigest 7 _ "pw" sampleMeta
    (by decide) rfl (by decide)]
  decide

/-- **C10**: after a lockout has expired the counter is still ≥ 3 (it is only
reset by a successful login), so one more failed attempt immediately sets a
fresh full 30-second lockout `now + LOCKOUT_DURATION_MS` with the incremented
count, and returns the lockout-trigger error. -/
theorem C10_failure_after_expiry_relocks (digest : String → String) (now : Nat)
    (store : Store) (password : String) (m : VaultMetadata)
    (hlock : store.security.lockoutUntil ≤ now)
    (hm : store.metadata = some m)
    (hh : ¬ hashPassword digest password m.salt = m.authHash)
    (hc : MAX_ATTEMPTS ≤ store.security.count) :
    loginUser digest now store password =
      { store := updateSecurityState store
          { count := store.security.count + 1
            lockoutUntil := now + LOCKOUT_DURATION_MS
            logs := store.security.logs ++ [{ timestamp := now, success := false }] }
        writes := [{ count := store.security.count + 1
                     lockoutUntil := now + LOCKOUT_DURATION_MS
                     logs := store.security.logs ++ [{ timestamp := now, success := false }] }]
        result := { success := false, key := none
                    error := some "Too many failed attempts. Account locked for 30 seconds." } } :=
  loginUser_mismatch_lock_eq digest now store password m (Nat.not_lt.mpr hlock) hm hh
    (Nat.le_succ_of_le hc)

/-- Witness for C10: at t = 30031 (lockout of `sampleRelockStore` expired at
30030, count still 3) a wrong password immediately re-locks until 60031. -/
theorem C10_failure_after_expiry_relocks_witness :
    (({ metadata := some sampleMeta, entries := []
        security := { count := 3, lockoutUntil := 30030, logs := [] } } : Store).security.lockoutUntil ≤ 30031) ∧
    (¬ hashPassword sampleDigest "xx" sampleMeta.salt = sampleMeta.authHash) ∧
    loginUser sampleDigest 30031
        { metadata := some sampleMeta, entries := []
          security := { count := 3, lockoutUntil := 30030, logs := [] } } "xx" =
      { store := { metadata := some sampleMeta, entries := []
                   security := { count := 4, lockoutUntil := 60031
                                 logs := [{ timestamp := 30031, success := false }] } }
        writes := [{ count := 4, lockoutUntil := 60031
                     logs := [{ timestamp := 30031, success := false }] }]
        result := { success := false, key := none
                    error := some "Too many failed attempts. Account locked for 30 seconds." } } := by
  refine ⟨by decide, by decide, ?_⟩
  rw [C10_failure_after_expiry_relocks sampleDigest 30031 _ "xx" sampleMeta
    (by decide) rfl (by decide) (by decide)]
  decide

/-- **C1**: starting from a zeroed `SecurityState`, exactly three consecutive
failed logins (times `t1, t2, t3`, each hash mismatching) step the counter
1 → 2 → 3; the third call returns the lockout error and sets
`lockoutUntil = t3 + LOCKOUT_DURATION_MS`, so `getLockoutStatus` reports
locked at `t3`; once the clock passes the expiry (`t4`), `getLockoutStatus`
reports unlocked and a subsequent login with the correct password succeeds. -/
theorem C1_three_failures_lockout_and_recovery
    (digest : String → String) (m : VaultMetadata) (es : List PasswordEntry)
    (t1 t2 t3 t4 : Nat) (p1 p2 p3 pOK : String)
    (h1 : ¬ hashPassword digest p1 m.salt = m.authHash)
    (h2 : ¬ hashPassword digest p2 m.salt = m.authHash)
    (h3 : ¬ hashPassword digest p3 m.salt = m.authHash)
    (hOK : hashPassword digest pOK m.salt = m.authHash)
    (ht : t3 + LOCKOUT_DURATION_MS < t4) :
    loginUser digest t1
        { metadata := some m, entries := es
          security := { count := 0, lockoutUntil := 0, logs := [] } } p1 =
      { store := { metadata := some m, entries := es
                   security := { count := 1, lockoutUntil := 0
                                 logs := [{ timestamp := t1, success := false }] } }
        writes := [{ count := 1, lockoutUntil := 0
                     logs := [{ timestamp := t1, success := false }] }]
        result := { success := false, key := none
                    error := some "Invalid password." } } ∧
    loginUser digest t2
        { metadata := some m, entries := es
          security := { count := 1, lockoutUntil := 0
                        logs := [{ timestamp := t1, success := false }] } } p2 =
      { store := { metadata := some m, entries := es
                   security := { count := 2, lockoutUntil := 0
                                 logs := [{ timestamp := t1, success := false },
                                          { timestamp := t2, success := false }] } }
        writes := [{ count := 2, lockoutUntil := 0
                     logs := [{ timestamp := t1, success := false },
                              { timestamp := t2, success := false }] }]
        result := { success := false, key := none
                    error := some "Invalid password." } } ∧
    loginUser digest t3
        { metadata := some m, entries := es
          security := { count := 2, lockoutUntil := 0
                        logs := [{ timestamp := t1, success := false },
                                 { timestamp := t2, success := false }] } } p3 =
      { store := { metadata := some m, entries := es
                   security := { count := 3, lockoutUntil := t3 + LOCKOUT_DURATION_MS
                                 logs := [{ timestamp := t1, success := false },
                                          { timestamp := t2, success := false },
                                          { timestamp := t3, success := false }] } }
        writes := [{ count := 3, lockoutUntil := t3 + LOCKOUT_DURATION_MS
                     logs := [{ timestamp := t1, success := false },
                              { timestamp := t2, success := false },
                              { timestamp := t3, success := false }] }]
        result := { success := false, key := none
                    error := some "Too many failed attempts. Account locked for 30 seconds." } } ∧
    (getLockoutStatus
        { metadata := some m, entries := es
          security := { count := 3, lockoutUntil := t3 + LOCKOUT_DURATION_MS
                        logs := [{ timestamp := t1, success := false },
                                 { timestamp := t2, success := false },
                                 { timestamp := t3, success := false }] } } t3).isLocked = true ∧
    (getLockoutStatus
        { metadata := some m, entries := es
          security := { count := 3, lockoutUntil := t3 + LOCKOUT_DURATION_MS
                        logs := [{ timestamp := t1, success := false },
                                 { timestamp := t2, success := false },
                                 { timestamp := t3, success := false }] } } t4).isLocked = false ∧
    (loginUser digest t4
        { metadata := some m, entries := es
          security := { count := 3, lockoutUntil := t3 + LOCKOUT_DURATION_MS
                        logs := [{ timestamp := t1, success := false },
                                 { timestamp := t2, success := false },
                                 { timestamp := t3, success := false }] } } pOK).result =
      { success := true, key := some (deriveKey pOK m.salt), error := none } := by
  refine ⟨?_, ?_, ?_, ?_, ?_, ?_⟩
  · exact loginUser_mismatch_below_eq digest t1 _ p1 m (by simp) rfl h1 (by simp [MAX_ATTEMPTS])
  · exact loginUser_mismatch_below_eq digest t2 _ p2 m (by simp) rfl h2 (by simp [MAX_ATTEMPTS])
  · exact loginUser_mismatch_lock_eq digest t3 _ p3 m (by simp) rfl h3 (by simp [MAX_ATTEMPTS])
  · have h : t3 < t3 + LOCKOUT_DURATION_MS := by simp [LOCKOUT_DURATION_MS]
    simp [getLockoutStatus, h]
  · have h : ¬ t3 + LOCKOUT_DURATION_MS > t4 := by omega
    simp [getLockoutStatus, h]
  · rw [loginUser_match_eq digest t4
      { metadata := some m, entries := es
        security := { count := 3, lockoutUntil := t3 + LOCKOUT_DURATION_MS
                      logs := [{ timestamp := t1, success := false },
                               { timestamp := t2, success := false },
                               { timestamp := t3, success := false }] } } pOK m
      (by show ¬ t3 + LOCKOUT_DURATION_MS > t4
          omega) rfl hOK]

/-- Witness for C1: wrong password `"xx"` three times at t = 10, 20, 30 from a
fresh vault, then correct password `"pw"` at t = 60031. -/
theorem C1_three_failures_lockout_and_recovery_witness :
    (¬ hashPassword sampleDigest "xx" sampleMeta.salt = sampleMeta.authHash) ∧
    hashPassword sampleDigest "pw" sampleMeta.salt = sampleMeta.authHash ∧
    (30 : Nat) + LOCKOUT_DURATION_MS < 60031 ∧
    (loginUser sampleDigest 60031
        { metadata := some sampleMeta, entries := []
          security := { count := 3, lockoutUntil := 30 + LOCKOUT_DURATION_MS
                        logs := [{ timestamp := 10, success := false },
                                 { timestamp := 20, success := false },
                                 { timestamp := 30, success := false }] } } "pw").result =
      { success := true, key := some (deriveKey "pw" sampleMeta.salt), error := none } := by
  refine ⟨by decide, by decide, by decide, ?_⟩
  exact (C1_three_failures_lockout_and_recovery sampleDigest sampleMeta [] 10 20 30 60031
    "xx" "xx" "xx" "pw" (by decide) (by decide) (by decide) (by decide) (by decide)).2.2.2.2.2

/-- **C4, counterexample**: a lockout-rejected login attempt performs no
`updateSecurityState` call and leaves `SecurityState` untouched, so the claim
that every login attempt mutates and persists `SecurityState` is false. -/
theorem C4_counterexample_lockout_no_persist :
    (loginUser sampleDigest 15 sampleLockedStore "pw").writes = [] ∧
    (loginUser sampleDigest 15 sampleLockedStore "pw").store = sampleLockedStore := by
  decide

/-- **C4, amended**: for attempts that reach the password check (no active
lockout, metadata present) the new `SecurityState` — with exactly one log
entry appended — is persisted through exactly one `updateSecurityState` call
before the result is returned; lockout-rejected and missing-metadata attempts
return without mutating or persisting `SecurityState`. -/
theorem C4_amended_persistence_policy (digest : String → String) (now : Nat)
    (store : Store) (password : String) :
    (∀ m : VaultMetadata, store.metadata = some m →
      ¬ store.security.lockoutUntil > now →
      (loginUser digest now store password).writes =
        [(loginUser digest now store password).store.security] ∧
      (loginUser digest now store password).store =
        updateSecurityState store (loginUser digest now store password).store.security ∧
      (loginUser digest now store password).store.security.logs.length =
        store.security.logs.length + 1) ∧
    ((store.security.lockoutUntil > now ∨ store.metadata = none) →
      (loginUser digest now store password).writes = [] ∧
      (loginUser digest now store password).store = store) := by
  constructor
  · intro m hm hlock
    by_cases hh : hashPassword digest password m.salt = m.authHash
    · rw [loginUser_match_eq digest now store password m hlock hm hh]
      simp [updateSecurityState]
    · by_cases hc : store.security.count + 1 < MAX_ATTEMPTS
      · rw [loginUser_mismatch_below_eq digest now store password m hlock hm hh hc]
        simp [updateSecurityState]
      · rw [loginUser_mismatch_lock_eq digest now store password m hlock hm hh
          (Nat.le_of_not_lt hc)]
        simp [updateSecurityState]
  · rintro (hlock | hm)
    · rw [loginUser_locked_eq digest now store password hlock]
      exact ⟨rfl, rfl⟩
    · rcases Nat.lt_or_ge now store.security.lockoutUntil with hl | hl
      · rw [loginUser_locked_eq digest now store password hl]
        exact ⟨rfl, rfl⟩
      · rw [loginUser_noMetadata_eq digest now store password (Nat.not_lt.mpr hl) hm]
        exact ⟨rfl, rfl⟩

/-- Witness for the amended C4: a successful attempt persists exactly its new
state; a lockout-rejected attempt persists nothing. -/
theorem C4_amended_persistence_policy_witness :
    (loginUser sampleDigest 40000 sampleLockedStore "pw").writes =
      [(loginUser sampleDigest 40000 sampleLockedStore "pw").store.security] ∧
    (loginUser sampleDigest 15 sampleLockedStore "pw").writes = [] := by
  constructor
  · exact ((C4_amended_persistence_policy sampleDigest 40000 sampleLockedStore "pw").1
      sampleMeta rfl (by decide)).1
  · exact ((C4_amended_persistence_policy sampleDigest 15 sampleLockedStore "pw").2
      (Or.inl (by decide))).1

/-- **C5, counterexample**: a hash-mismatch failure and a missing-metadata
failure return different error messages ("Invalid password." vs "Vault
corrupted or missing."), so the service boundary does distinguish the two
failure reasons, contradicting the claim. -/
theorem C5_counterexample_distinct_messages :
    (loginUser sampleDigest 0 sampleFreshStore "xx").result.error =
      some "Invalid password." ∧
    (loginUser sampleDigest 0 noVaultStore "xx").result.error =
      some "Vault corrupted or missing." ∧
    (loginUser sampleDigest 0 sampleFreshStore "xx").result.error ≠
      (loginUser sampleDigest 0 noVaultStore "xx").result.error := by
  decide

/-- **C5, amended**: a wrong password below the lockout threshold always
yields the generic "Invalid password." message, while a missing-metadata
failure always yields the distinct "Vault corrupted or missing." message —
the two failure kinds are, therefore, distinguishable past the service
boundary. -/
theorem C5_amended_messages_distinguish (digest : String → String)
    (now1 now2 : Nat) (store1 store2 : Store) (p1 p2 : String) (m : VaultMetadata)
    (h1lock : ¬ store1.security.lockoutUntil > now1)
    (h1m : store1.metadata = some m)
    (h1h : ¬ hashPassword digest p1 m.salt = m.authHash)
    (h1c : store1.security.count + 1 < MAX_ATTEMPTS)
    (h2lock : ¬ store2.security.lockoutUntil > now2)
    (h2m : store2.metadata = none) :
    (loginUser digest now1 store1 p1).result.error = some "Invalid password." ∧
    (loginUser digest now2 store2 p2).result.error = some "Vault corrupted or missing." ∧
    (loginUser digest now1 store1 p1).result.error ≠
      (loginUser digest now2 store2 p2).result.error := by
  rw [loginUser_mismatch_below_eq digest now1 store1 p1 m h1lock h1m h1h h1c,
    loginUser_noMetadata_eq digest now2 store2 p2 h2lock h2m]
  refine ⟨rfl, rfl, ?_⟩
  show (some "Invalid password." : Option String) ≠ some "Vault corrupted or missing."
  decide

/-- Witness for the amended C5 at concrete stores. -/
theorem C5_amended_messages_distinguish_witness :
    (¬ sampleFreshStore.security.lockoutUntil > 0) ∧
    (¬ hashPassword sampleDigest "xx" sampleMeta.salt = sampleMeta.authHash) ∧
    sampleFreshStore.security.count + 1 < MAX_ATTEMPTS ∧
    (loginUser sampleDigest 0 sampleFreshStore "xx").result.error ≠
      (loginUser sampleDigest 0 noVaultStore "xx").result.error := by
  refine ⟨by decide, by decide, by decide, ?_⟩
  exact (C5_amended_messages_distinguish sampleDigest 0 0 sampleFreshStore noVaultStore
    "xx" "xx" sampleMeta (by decide) rfl (by decide) (by decide) (by decide) rfl).2.2

/-- **C9, counterexample**: at the exact boundary instant
`lockoutUntil == now` the account is treated as already unlocked, not still
locked: `getLockoutStatus` reports `isLocked = false` and a login with the
correct password proceeds and succeeds. -/
theorem C9_counterexample_boundary_unlocked :
    sampleBoundaryStore.security.lockoutUntil = 1000 ∧
    (getLockoutStatus sampleBoundaryStore 1000).isLocked = false ∧
    (loginUser sampleDigest 1000 sampleBoundaryStore "pw").result.success = true := by
  decide

/-- **C9, amended**: `login` and `getLockoutStatus` apply one and the same
strict-greater comparison `lockoutUntil > now`, and under this policy an
attempt at the exact instant `lockoutUntil == now` is treated as already
unlocked: `getLockoutStatus` reports unlocked and (with metadata present) the
attempt proceeds to the password check and is recorded. -/
theorem C9_amended_uniform_strict_comparison (digest : String → String) (now : Nat)
    (store : Store) (password : String) :
    ((getLockoutStatus store now).isLocked = true ↔ store.security.lockoutUntil > now) ∧
    (store.security.lockoutUntil > now →
      loginUser digest now store password =
        { store := store, writes := []
          result := { success := false, key := none
                      error := some ("Account locked. Try again in " ++
                        toString ((store.security.lockoutUntil - now + 999) / 1000) ++
                        " seconds.") } }) ∧
    (∀ m : VaultMetadata, store.metadata = some m →
      ¬ store.security.lockoutUntil > now →
      (loginUser digest now store password).writes.length = 1) ∧
    (store.security.lockoutUntil = now →
      (getLockoutStatus store now).isLocked = false ∧
      (∀ m : VaultMetadata, store.metadata = some m →
        (loginUser digest now store password).writes.length = 1)) := by
  have hstatus : ∀ t : Nat, (getLockoutStatus store t).isLocked = true ↔
      store.security.lockoutUntil > t := by
    intro t
    by_cases h : store.security.lockoutUntil > t
    · simp [getLockoutStatus, h]
    · simp [getLockoutStatus, h]
  have hwrites : ∀ m : VaultMetadata, store.metadata = some m →
      ¬ store.security.lockoutUntil > now →
      (loginUser digest now store password).writes.length = 1 := by
    intro m hm hlock
    by_cases hh : hashPassword digest password m.salt = m.authHash
    · rw [loginUser_match_eq digest now store password m hlock hm hh]
      rfl
    · by_cases hc : store.security.count + 1 < MAX_ATTEMPTS
      · rw [loginUser_mismatch_below_eq digest now store password m hlock hm hh hc]
        rfl
      · rw [loginUser_mismatch_lock_eq digest now store password m hlock hm hh
          (Nat.le_of_not_lt hc)]
        rfl
  refine ⟨hstatus now, fun h => loginUser_locked_eq digest now store password h, hwrites, ?_⟩
  intro hb
  have hnl : ¬ store.security.lockoutUntil > now := by omega
  refine ⟨?_, fun m hm => hwrites m hm hnl⟩
  rcases Bool.eq_false_or_eq_true (getLockoutStatus store now).isLocked with h | h
  · exact absurd ((hstatus now).mp h) hnl
  · exact h

/-- Witness for the amended C9 at the boundary store and instant. -/
theorem C9_amended_uniform_strict_comparison_witness :
    sampleBoundaryStore.security.lockoutUntil = 1000 ∧
    (getLockoutStatus sampleBoundaryStore 1000).isLocked = false ∧
    (loginUser sampleDigest 1000 sampleBoundaryStore "pw").writes.length = 1 := by
  refine ⟨by decide, ?_, ?_⟩
  · exact ((C9_amended_uniform_strict_comparison sampleDigest 1000 sampleBoundaryStore
      "pw").2.2.2 (by decide)).1
  · exact ((C9_amended_uniform_strict_comparison sampleDigest 1000 sampleBoundaryStore
      "pw").2.2.2 (by decide)).2 sampleMeta rfl

/-- **C8, counterexample**: stored metadata cells that silently yield the
no-vault absence result instead of an error: the empty-string cell
(unparsable — `JSON.parse("")` throws — but JS-falsy) reads as `null` with
`hasVault = false`, and a cell holding the valid-JSON text `"null"` reads as
`null` while `hasVault` simultaneously reports `true`. -/
theorem C8_counterexample_silent_default_cells :
    (getMetadata (some (RawData.empty : RawData VaultMetadata)) =
        Except.ok JSRead.jsNull ∧
      hasVault (some (RawData.empty : RawData VaultMetadata)) = false) ∧
    (getMetadata (some (RawData.parsed (JsonValue.jsonNull : JsonValue VaultMetadata))) =
        Except.ok JSRead.jsNull ∧
      hasVault (some (RawData.parsed (JsonValue.jsonNull : JsonValue VaultMetadata))) =
        true) := by
  exact ⟨⟨rfl, rfl⟩, ⟨rfl, rfl⟩⟩

/-- **C8, amended**: in all three readers a non-empty cell on which
`JSON.parse` throws surfaces that failure as an error, and a truly absent
cell yields the valid defaults (`null` metadata with `hasVault = false`,
empty entry list, zeroed security state); but no shape validation happens on
cells that do parse: the JSON text `"null"` silently reads back as `null`
(conflated with the absence result, even though `hasVault` reports `true` on
such a metadata cell), wrong-shape JSON is passed through unchecked as-is,
and the empty-string cell is conflated with absence by the JS truthiness
test. -/
theorem C8_amended_parse_errors_versus_unvalidated_reads :
    (getMetadata (some (RawData.corrupt : RawData VaultMetadata)) =
      Except.error StorageError.parseFailure) ∧
    (getEntries (some (RawData.corrupt : RawData (List PasswordEntry))) =
      Except.error StorageError.parseFailure) ∧
    (getSecurityState (some (RawData.corrupt : RawData SecurityState)) =
      Except.error StorageError.parseFailure) ∧
    (getMetadata (none : Option (RawData VaultMetadata)) = Except.ok JSRead.jsNull) ∧
    (hasVault (none : Option (RawData VaultMetadata)) = false) ∧
    (getEntries (none : Option (RawData (List PasswordEntry))) =
      Except.ok (JSRead.value [])) ∧
    (getSecurityState (none : Option (RawData SecurityState)) =
      Except.ok (JSRead.value { count := 0, lockoutUntil := 0, logs := [] })) ∧
    (∀ m : VaultMetadata,
      getMetadata (some (RawData.parsed (JsonValue.ofShape m))) =
          Except.ok (JSRead.value m) ∧
        hasVault (some (RawData.parsed (JsonValue.ofShape m))) = true) ∧
    (getMetadata (some (RawData.parsed (JsonValue.jsonNull : JsonValue VaultMetadata))) =
        Except.ok JSRead.jsNull ∧
      hasVault (some (RawData.parsed (JsonValue.jsonNull : JsonValue VaultMetadata))) =
        true) ∧
    (getEntries (some (RawData.parsed
        (JsonValue.jsonNull : JsonValue (List PasswordEntry)))) =
      Except.ok JSRead.jsNull) ∧
    (getSecurityState (some (RawData.parsed
        (JsonValue.jsonNull : JsonValue SecurityState))) =
      Except.ok JSRead.jsNull) ∧
    (∀ raw : String,
      getMetadata (some (RawData.parsed
          (JsonValue.otherShape raw : JsonValue VaultMetadata))) =
          Except.ok (JSRead.garbage raw) ∧
        getEntries (some (RawData.parsed
          (JsonValue.otherShape raw : JsonValue (List PasswordEntry)))) =
          Except.ok (JSRead.garbage raw) ∧
        getSecurityState (some (RawData.parsed
          (JsonValue.otherShape raw : JsonValue SecurityState))) =
          Except.ok (JSRead.garbage raw)) ∧
    (getMetadata (some (RawData.empty : RawData VaultMetadata)) =
        Except.ok JSRead.jsNull ∧
      hasVault (some (RawData.empty : RawData VaultMetadata)) = false) := by
  exact ⟨rfl, rfl, rfl, rfl, rfl, rfl, rfl, fun m => ⟨rfl, rfl⟩, ⟨rfl, rfl⟩, rfl, rfl,
    fun raw => ⟨rfl, rfl, rfl⟩, rfl, rfl⟩

/-- For a byte value (< 256), `String.fromCharCode` followed by `charCodeAt`
restores exactly the byte. -/
theorem char_code_roundtrip (b : Nat) (h : b < 256) : (Char.ofNat b).toNat = b := by
  have hv : b.isValidChar := Or.inl (by omega)
  simp only [Char.ofNat, hv, dif_pos, Char.toNat, Char.ofNatAux]
  simp [UInt32.toNat, UInt32.ofNat', BitVec.toNat_ofNat]

/-- The repository's byte↔binary-string loops compose to the identity on byte
buffers whenever the platform pair satisfies `atob(btoa(s)) = s` on binary
strings (strings of char codes < 256, which is when `btoa` is defined). -/
theorem base64_buffer_roundtrip (btoa' atob' : String → String)
    (hb : ∀ s : String, (∀ c ∈ s.data, c.toNat < 256) → atob' (btoa' s) = s)
    (buffer : List Nat) (hbuf : ∀ b ∈ buffer, b < 256) :
    base64ToBuffer atob' (bufferToBase64 btoa' buffer) = buffer := by
  unfold base64ToBuffer bufferToBase64
  rw [hb (String.mk (buffer.map Char.ofNat))]
  · show (buffer.map Char.ofNat).map (fun c => c.toNat % 256) = buffer
    rw [List.map_map]
    calc buffer.map ((fun c : Char => c.toNat % 256) ∘ Char.ofNat)
        = buffer.map id := by
          apply List.map_congr_left
          intro b hmem
          have h256 := hbuf b hmem
          simp [char_code_roundtrip b h256, Nat.mod_eq_of_lt h256]
      _ = buffer := List.map_id buffer
  · intro c hc
    have hc' : c ∈ buffer.map Char.ofNat := hc
    obtain ⟨b, hmem, rfl⟩ := List.mem_map.mp hc'
    rw [char_code_roundtrip b (hbuf b hmem)]
    exact hbuf b hmem

/-- **C6**: for every plaintext and key, decrypting the output of
`encryptData` with the same key and the IV it produced returns the original
plaintext, given the platform contracts: `atob` inverts `btoa` on binary
strings, AES-GCM decryption inverts encryption for the same key/IV on this
input, the ciphertext and IV are byte arrays, and `TextDecoder` inverts
`TextEncoder` on this plaintext. -/
theorem C6_encrypt_decrypt_roundtrip
    (textEncode : String → List Nat) (textDecode : List Nat → String)
    (gcmEncrypt : CryptoKey → List Nat → List Nat → List Nat)
    (gcmDecrypt : CryptoKey → List Nat → List Nat → Option (List Nat))
    (btoa' atob' : String → String) (ivBytes : List Nat)
    (text : String) (key : CryptoKey)
    (hb : ∀ s : String, (∀ c ∈ s.data, c.toNat < 256) → atob' (btoa' s) = s)
    (hiv : ∀ b ∈ ivBytes, b < 256)
    (hct : ∀ b ∈ gcmEncrypt key ivBytes (textEncode text), b < 256)
    (hgcm : gcmDecrypt key ivBytes (gcmEncrypt key ivBytes (textEncode text)) =
      some (textEncode text))
    (hdec : textDecode (textEncode text) = text) :
    decryptData textDecode gcmDecrypt atob'
      (encryptData textEncode gcmEncrypt btoa' ivBytes text key).ciphertext
      (encryptData textEncode gcmEncrypt btoa' ivBytes text key).iv key =
    Except.ok text := by
  unfold encryptData decryptData
  simp only
  rw [base64_buffer_roundtrip btoa' atob' hb _ hct,
    base64_buffer_roundtrip btoa' atob' hb ivBytes hiv, hgcm]
  show Except.ok (textDecode (textEncode text)) = Except.ok text
  rw [hdec]

/-- Witness for C6 with a concrete toy platform: identity `btoa`/`atob`,
identity AES-GCM, char-code text encoding, plaintext `"ab"`. -/
theorem C6_encrypt_decrypt_roundtrip_witness :
    decryptData (fun l => String.mk (l.map Char.ofNat))
      (fun _ _ c => some c) (fun s => s)
      (encryptData (fun s => s.data.map Char.toNat) (fun _ _ d => d) (fun s => s)
        [0, 1, 2, 3, 4, 5, 6, 7, 8, 9, 10, 11] "ab"
        { password := "pw", salt := "SALT" }).ciphertext
      (encryptData (fun s => s.data.map Char.toNat) (fun _ _ d => d) (fun s => s)
        [0, 1, 2, 3, 4, 5, 6, 7, 8, 9, 10, 11] "ab"
        { password := "pw", salt := "SALT" }).iv
      { password := "pw", salt := "SALT" } =
    Except.ok "ab" := by
  exact C6_encrypt_decrypt_roundtrip
    (fun s => s.data.map Char.toNat) (fun l => String.mk (l.map Char.ofNat))
    (fun _ _ d => d) (fun _ _ c => some c) (fun s => s) (fun s => s)
    [0, 1, 2, 3, 4, 5, 6, 7, 8, 9, 10, 11] "ab" { password := "pw", salt := "SALT" }
    (fun _ _ => rfl) (by decide) (by decide) rfl (by decide)

/-- **C7**: `register` generates a fresh 16-byte salt — the base64 encoding
of exactly the 16 bytes requested from the platform RNG, which the persisted
salt decodes back to — computes `authHash = hashPassword(password, salt)`,
persists `VaultMetadata{salt, authHash}` together with an empty entry list
and the zeroed `SecurityState { count := 0, lockoutUntil := 0, logs := [] }`
via `initVault`, and returns `deriveKey(password, salt)` as the session key.
Platform contracts assumed: `getRandomValues` fills the requested 16-slot
`Uint8Array` (16 bytes, each < 256) and `atob` inverts `btoa` on binary
strings. -/
theorem C7_register_initialises_vault (digest btoa' atob' : String → String)
    (getRandomValues : Nat → List Nat) (password : String)
    (hb : ∀ s : String, (∀ c ∈ s.data, c.toNat < 256) → atob' (btoa' s) = s)
    (hlen : (getRandomValues 16).length = 16)
    (hbytes : ∀ b ∈ getRandomValues 16, b < 256) :
    registerUser digest btoa' getRandomValues password =
      ({ metadata := some { salt := generateSalt btoa' getRandomValues
                            authHash := hashPassword digest password
                              (generateSalt btoa' getRandomValues) }
         entries := []
         security := { count := 0, lockoutUntil := 0, logs := [] } },
       deriveKey password (generateSalt btoa' getRandomValues)) ∧
    (registerUser digest btoa' getRandomValues password).1 =
      initVault { salt := generateSalt btoa' getRandomValues
                  authHash := hashPassword digest password
                    (generateSalt btoa' getRandomValues) } ∧
    base64ToBuffer atob' (generateSalt btoa' getRandomValues) =
      getRandomValues 16 ∧
    (base64ToBuffer atob' (generateSalt btoa' getRandomValues)).length = 16 := by
  refine ⟨rfl, rfl, ?_, ?_⟩
  · exact base64_buffer_roundtrip btoa' atob' hb (getRandomValues 16) hbytes
  · show (base64ToBuffer atob' (bufferToBase64 btoa' (getRandomValues 16))).length = 16
    rw [base64_buffer_roundtrip btoa' atob' hb (getRandomValues 16) hbytes]
    exact hlen

/-- Witness for C7 with the identity `btoa`/`atob` and an RNG filling the
16-slot array with bytes 0..15: the persisted salt decodes back to exactly
those 16 bytes and the session key is derived from it. -/
theorem C7_register_initialises_vault_witness :
    (List.range 16).length = 16 ∧
    (∀ b ∈ List.range 16, b < 256) ∧
    base64ToBuffer (fun s => s) (generateSalt (fun s => s) List.range) =
      List.range 16 ∧
    (registerUser sampleDigest (fun s => s) List.range "pw").2 =
      deriveKey "pw" (generateSalt (fun s => s) List.range) := by
  refine ⟨by decide, by decide, ?_, ?_⟩
  · exact (C7_register_initialises_vault sampleDigest (fun s => s) (fun s => s)
      List.range "pw" (fun _ _ => rfl) (by decide) (by decide)).2.2.1
  · exact congrArg Prod.snd (C7_register_initialises_vault sampleDigest (fun s => s)
      (fun s => s) List.range "pw" (fun _ _ => rfl) (by decide) (by decide)).1

end Vault
